import Mathlib

/-!
Verification development for the order-orchestrator service of INDMoneyPlus
(`src/services/order-orchestrator`).  The Python modules under `app/` are
shallowly embedded: pure helpers become Lean functions, database sessions
become explicit lists of rows threaded through the operations, and the Redis
idempotency cache becomes an association list with explicit expiry times.
Python `float` quantities and prices are modelled as `Rat`; Python `int`
identifiers as `Nat`; Python `Optional[x]` as `Option`.  `datetime.utcnow()`
and the uuid fragments of mock external order ids are modelled as explicit
parameters supplied by the caller, making every operation deterministic.
-/

/-- Python's `x or d` fallback applied to an optional float, as used
throughout `order_validator.py` and `reconcile.py` (`order.price_limit or
1000.0`, `o.fill_price or 0` …).  Python treats `0.0` as falsy, so a present
zero also falls back to the default. -/
def pyOr (x : Option Rat) (d : Rat) : Rat :=
  match x with
  | none => d
  | some v => if v = 0 then d else v

/-- The validation-relevant fields of `Settings` (`app/core/config.py`),
with the defaults declared there. -/
structure Settings where
  min_lot_size : Rat
  max_order_value : Rat
  margin_check_enabled : Bool
deriving Repr, DecidableEq

/-- `settings = Settings()` from `app/core/config.py`: `min_lot_size = 1`,
`max_order_value = 10000000.0`, `margin_check_enabled = True`. -/
def settings : Settings :=
  { min_lot_size := 1, max_order_value := 10000000, margin_check_enabled := true }

/-- `OrderCreate` (`app/schemas/order.py`): one order instruction of a batch
request.  The pydantic field constraints (`qty > 0`, `price_limit > 0`,
`side` matching `^(BUY|SELL)$`) live in the transport layer and are not baked
into the type; the validator below re-checks sides itself. -/
structure OrderCreate where
  instrument_id : Nat
  qty : Rat
  price_limit : Option Rat
  side : String
  broker : Option String
deriving Repr, DecidableEq

/-- `OrderBatchCreate` (`app/schemas/order.py`). -/
structure OrderBatchCreate where
  portfolio_id : Nat
  orders : List OrderCreate
  idempotency_key : Option String
deriving Repr, DecidableEq

/-- Optional instrument metadata passed to the validator
(`instrument_data` in `OrderValidator.validate`); only its `lot_size`
key is read. -/
structure InstrumentData where
  lot_size : Option Rat
deriving Repr, DecidableEq

namespace OrderValidator

/-- `OrderValidator._check_margin` (`order_validator.py`): the mock margin
check.  `estimated_value = order.qty * (order.price_limit or 1000.0)`
against the hard-coded `margin_limit = 1000000.0`; returns the `valid` flag
and, when invalid, the `reason` message. -/
def check_margin (order : OrderCreate) (portfolio_id : Nat) : Bool × String :=
  let estimated_value := order.qty * pyOr order.price_limit 1000
  let margin_limit : Rat := 1000000
  if estimated_value > margin_limit then
    (false, "Insufficient margin. Required: " ++ toString estimated_value ++
      ", Available: " ++ toString margin_limit)
  else
    (true, "")

/-- Python `qty % lot_size != 0` for the positive rationals that occur here:
`qty` is not an exact integer multiple of `lot_size`. -/
def notMultipleOf (qty lot_size : Rat) : Bool :=
  qty - lot_size * (Int.floor (qty / lot_size) : Int) ≠ 0

/-- The `errors` list accumulated by `OrderValidator.validate`
(`order_validator.py`), in the source's order of evaluation: lot size,
price-limit positivity and maximum order value, side, margin check (when
enabled), instrument lot-size multiple.  All rules are evaluated; nothing
short-circuits. -/
def validationErrors (order : OrderCreate) (portfolio_id : Nat)
    (instrument_data : Option InstrumentData) : List String :=
  let e1 : List String :=
    if order.qty < settings.min_lot_size then
      ["Quantity " ++ toString order.qty ++ " is below minimum lot size " ++
        toString settings.min_lot_size]
    else []
  let e2 : List String :=
    match order.price_limit with
    | none => []
    | some pl =>
        (if pl ≤ 0 then ["Price limit must be positive"] else []) ++
        (let estimated_value := order.qty * pl
         if estimated_value > settings.max_order_value then
           ["Order value " ++ toString estimated_value ++ " exceeds maximum " ++
             toString settings.max_order_value]
         else [])
  let e3 : List String :=
    if order.side = "BUY" ∨ order.side = "SELL" then []
    else ["Invalid side: " ++ order.side ++ ". Must be BUY or SELL"]
  let e4 : List String :=
    if settings.margin_check_enabled then
      let m := check_margin order portfolio_id
      if m.1 then [] else [m.2]
    else []
  let e5 : List String :=
    match instrument_data with
    | none => []
    | some idata =>
        match idata.lot_size with
        | none => []
        | some ls =>
            if notMultipleOf order.qty ls then
              ["Quantity " ++ toString order.qty ++ " must be multiple of lot size " ++
                toString ls]
            else []
  e1 ++ e2 ++ e3 ++ e4 ++ e5

/-- `OrderValidator.validate` (`order_validator.py`): raises
`ValidationError("; ".join(errors))` when any rule is violated, otherwise
returns the result dict, whose `estimated_value` is
`order.qty * (order.price_limit or 0)`.  The raised exception is modelled as
`Except.error` carrying the joined message; the success dict as the
estimated value (its `valid` key is constantly true). -/
def validate (order : OrderCreate) (portfolio_id : Nat)
    (instrument_data : Option InstrumentData) : Except String Rat :=
  let errors := validationErrors order portfolio_id instrument_data
  if errors.isEmpty then
    Except.ok (order.qty * pyOr order.price_limit 0)
  else
    Except.error (String.intercalate "; " errors)

end OrderValidator

/-- The per-order validation loop of `create_order_batch`
(`app/api/orders.py`): each order is validated in turn and the first
`ValidationError` is re-raised as an HTTP 400 whose detail is
`"Order validation failed: " + str(e)`; orders after the first failing one
are never examined.  `instrument_data` is not passed there (`None`). -/
def validateBatch (orders : List OrderCreate) (portfolio_id : Nat) :
    Except String Unit :=
  match orders with
  | [] => Except.ok ()
  | o :: rest =>
      match OrderValidator.validate o portfolio_id none with
      | Except.error e => Except.error ("Order validation failed: " ++ e)
      | Except.ok _ => validateBatch rest portfolio_id

/-- One routing decision of `get_routing_strategy`
(`app/core/connectors/factory.py`). -/
structure RouteDecision where
  order_index : Nat
  broker : String
  reason : String
deriving Repr, DecidableEq

/-- The two broker names the factory knows (`factory.py`):
`["zerodha-mock", "alpaca-mock"]`. -/
def knownBrokers : List String := ["zerodha-mock", "alpaca-mock"]

/-- The default heuristic of `get_routing_strategy`:
`"zerodha-mock" if i % 2 == 0 else "alpaca-mock"`. -/
def defaultBroker (i : Nat) : String :=
  if i % 2 = 0 then "zerodha-mock" else "alpaca-mock"

/-- Python's `if preferred_broker and preferred_broker in ["zerodha-mock",
"alpaca-mock"]`: the argument must be truthy (not `None`, not the empty
string) and a known broker name. -/
def preferredIsValid (preferred_broker : Option String) : Bool :=
  match preferred_broker with
  | none => false
  | some b => b ≠ "" ∧ b ∈ knownBrokers

/-- `get_routing_strategy(orders, preferred_broker=None)` (`factory.py`):
per order index, either the valid preferred broker with reason
`"Preferred broker specified"`, or the index-parity default with reason
`"Default routing strategy"`.  Only the length of `orders` matters. -/
def get_routing_strategy (orders : List OrderCreate)
    (preferred_broker : Option String) : List RouteDecision :=
  (List.range orders.length).map fun i =>
    if preferredIsValid preferred_broker then
      { order_index := i,
        broker := (preferred_broker.getD ""),
        reason := "Preferred broker specified" }
    else
      { order_index := i, broker := defaultBroker i,
        reason := "Default routing strategy" }

/-- `OrderResult` (`app/core/connectors/base.py`): the result of a broker
placement or status query.  `timestamp` (a `datetime` defaulted to
`utcnow()` in `__post_init__`) is modelled as a `Nat` clock value supplied
by the caller. -/
structure OrderResult where
  success : Bool
  ext_order_id : Option String
  status : String
  fill_price : Option Rat
  fill_qty : Option Rat
  error_message : Option String
  timestamp : Nat
deriving Repr, DecidableEq

/-- The mutable state of a `BaseBrokerConnector` (`base.py`) plus the
`_order_counter` of the mock connector subclasses: the broker name, the
counter used for fresh external order ids, and `_simulated_fills`, the dict
mapping an internal order id to registered `{fill_price, fill_qty}` data. -/
structure ConnectorState where
  broker_name : String
  order_counter : Nat
  simulated_fills : List (Nat × Rat × Rat)
deriving Repr, DecidableEq

/-- `BaseBrokerConnector.set_simulated_fill(order_id, fill_price, fill_qty)`
(`base.py`): dict assignment, overwriting any entry under the same key. -/
def set_simulated_fill (s : ConnectorState) (order_id : Nat)
    (fill_price fill_qty : Rat) : ConnectorState :=
  { s with simulated_fills :=
      (order_id, fill_price, fill_qty) ::
        s.simulated_fills.filter (fun e => e.1 ≠ order_id) }

/-- `BaseBrokerConnector.get_simulated_fill(order_id)` (`base.py`):
`self._simulated_fills.get(order_id)`. -/
def get_simulated_fill (s : ConnectorState) (order_id : Nat) :
    Option (Rat × Rat) :=
  (s.simulated_fills.find? (fun e => e.1 = order_id)).map (fun e => e.2)

/-- `AlpacaMockConnector.place_order` (`app/core/connectors/alpaca.py`).
The counter is incremented, a fresh external id
`f"ALPACA-{counter}-{uuid4().hex[:8].upper()}"` is built (the uuid fragment
is the explicit `uuid` argument here), and the simulated-fill table is
consulted **with the `instrument_id` argument as the key**; a hit returns a
`filled` result carrying the registered price and quantity, a miss returns a
`placed` result with no fill fields.  `qty`, `side` and `price_limit` only
feed the log line. -/
def AlpacaMockConnector.place_order (s : ConnectorState) (uuid : String)
    (now : Nat) (instrument_id : Nat) (qty : Rat) (side : String)
    (price_limit : Option Rat) : ConnectorState × OrderResult :=
  let counter := s.order_counter + 1
  let s' := { s with order_counter := counter }
  let ext := "ALPACA-" ++ toString counter ++ "-" ++ uuid
  match get_simulated_fill s instrument_id with
  | some fill =>
      (s', { success := true, ext_order_id := some ext, status := "filled",
             fill_price := some fill.1, fill_qty := some fill.2,
             error_message := none, timestamp := now })
  | none =>
      (s', { success := true, ext_order_id := some ext, status := "placed",
             fill_price := none, fill_qty := none,
             error_message := none, timestamp := now })

/-- Modelled from the spec: `app/core/connectors/zerodha.py` is imported and
instantiated by `factory.get_connector` but the module itself is not present
under `src/`.  Per §4.4 every connector variant behaves like the mock above —
its own simulated-fill table, a freshly generated external order id, a
`filled` result exactly when a simulated fill is registered — so the Zerodha
variant is modelled identically to `AlpacaMockConnector.place_order` with the
`ZERODHA-` external-id prefix (the shape the repo's tests use,
e.g. `ZERODHA-123`). -/
def ZerodhaMockConnector.place_order (s : ConnectorState) (uuid : String)
    (now : Nat) (instrument_id : Nat) (qty : Rat) (side : String)
    (price_limit : Option Rat) : ConnectorState × OrderResult :=
  let counter := s.order_counter + 1
  let s' := { s with order_counter := counter }
  let ext := "ZERODHA-" ++ toString counter ++ "-" ++ uuid
  match get_simulated_fill s instrument_id with
  | some fill =>
      (s', { success := true, ext_order_id := some ext, status := "filled",
             fill_price := some fill.1, fill_qty := some fill.2,
             error_message := none, timestamp := now })
  | none =>
      (s', { success := true, ext_order_id := some ext, status := "placed",
             fill_price := none, fill_qty := none,
             error_message := none, timestamp := now })

/-- A row of the `orders` table (`app/models/order.py`).  Timestamps are
`Nat` clock values; `id` is the integer primary key. -/
structure Order where
  id : Nat
  portfolio_id : Nat
  broker : String
  instrument_id : Nat
  qty : Rat
  price_limit : Option Rat
  side : String
  status : String
  created_at : Nat
  executed_at : Option Nat
  ext_order_id : Option String
  fill_price : Option Rat
  fill_qty : Option Rat
  batch_id : Option Nat
deriving Repr, DecidableEq

/-- A row of the `order_batches` table (`app/models/order.py`).
`orders_json` is the verbatim snapshot of the submitted order requests. -/
structure OrderBatch where
  id : Nat
  user_id : Nat
  portfolio_id : Nat
  orders_json : List OrderCreate
  status : String
  created_at : Nat
  idempotency_key : Option String
deriving Repr, DecidableEq

/-- The payload of the lifecycle event published by `update_order_status`
(`app/core/order_lifecycle.py`): order fields plus old and new status and the
fill/external-id arguments of the call. -/
structure OrderEvent where
  event_type : String
  order_id : Nat
  portfolio_id : Nat
  broker : String
  instrument_id : Nat
  qty : Rat
  side : String
  status : String
  old_status : String
  fill_price : Option Rat
  fill_qty : Option Rat
  ext_order_id : Option String
  timestamp : Nat
deriving Repr, DecidableEq

/-- `update_order_status` (`app/core/order_lifecycle.py`).  The order is
loaded by id (`ValueError` when absent, modelled as `Except.error`); the new
status is assigned **unconditionally** — nothing compares it with the old
status; each of `fill_price`, `fill_qty`, `ext_order_id` overwrites the
stored field only when the argument is not `None`; `executed_at` is stamped
exactly when the new status is `"filled"`; the row is persisted and an
`order.<new_status>` event carrying old and new status is emitted (returned
here alongside the updated table). -/
def update_order_status (db : List Order) (order_id : Nat)
    (new_status : String) (fill_price fill_qty : Option Rat)
    (ext_order_id : Option String) (now : Nat) :
    Except String (List Order × OrderEvent) :=
  match db.find? (fun o => o.id = order_id) with
  | none => Except.error ("Order " ++ toString order_id ++ " not found")
  | some order =>
      let old_status := order.status
      let updated : Order :=
        { order with
          status := new_status,
          fill_price := fill_price <|> order.fill_price,
          fill_qty := fill_qty <|> order.fill_qty,
          ext_order_id := ext_order_id <|> order.ext_order_id,
          executed_at := if new_status = "filled" then some now else order.executed_at }
      let db' := db.map (fun o => if o.id = order_id then updated else o)
      let ev : OrderEvent :=
        { event_type := "order." ++ new_status,
          order_id := order.id,
          portfolio_id := order.portfolio_id,
          broker := order.broker,
          instrument_id := order.instrument_id,
          qty := order.qty,
          side := order.side,
          status := new_status,
          old_status := old_status,
          fill_price := fill_price,
          fill_qty := fill_qty,
          ext_order_id := ext_order_id,
          timestamp := now }
      Except.ok (db', ev)

/-- `process_order_acknowledgment` (`order_lifecycle.py`): transition to
`acked` with no fill data. -/
def process_order_acknowledgment (db : List Order) (order_id : Nat)
    (now : Nat) : Except String (List Order × OrderEvent) :=
  update_order_status db order_id "acked" none none none now

/-- `process_order_fill` (`order_lifecycle.py`): transition to `filled`
supplying both `fill_price` and `fill_qty`. -/
def process_order_fill (db : List Order) (order_id : Nat)
    (fill_price fill_qty : Rat) (now : Nat) :
    Except String (List Order × OrderEvent) :=
  update_order_status db order_id "filled" (some fill_price) (some fill_qty)
    none now

/-- `ReconciliationReport` (`app/schemas/order.py`), without the echoed
`orders` list (the aggregates under verification). -/
structure ReconciliationReport where
  batch_id : Nat
  total_orders : Nat
  filled_orders : Nat
  pending_orders : Nat
  cancelled_orders : Nat
  total_qty : Rat
  filled_qty : Rat
  total_value : Rat
  filled_value : Rat
  expected_pnl : Option Rat
  actual_pnl : Option Rat
deriving Repr, DecidableEq

/-- `sum((o.fill_price or 0) * (o.fill_qty or 0) for o in os)` from
`reconcile.py`. -/
def sumFillValue (os : List Order) : Rat :=
  (os.map (fun o => pyOr o.fill_price 0 * pyOr o.fill_qty 0)).sum

/-- `sum((o.price_limit or 0) * o.qty for o in os)` from `reconcile.py`. -/
def sumLimitValue (os : List Order) : Rat :=
  (os.map (fun o => pyOr o.price_limit 0 * o.qty)).sum

/-- `orders` of `reconcile_batch` (`reconcile.py`): the rows referencing
the batch id (`select(Order).where(Order.batch_id == batch_id)`). -/
def batchOrders (db : List Order) (batch_id : Nat) : List Order :=
  db.filter (fun o => o.batch_id = some batch_id)

/-- `buy_orders` of `reconcile_batch` (`reconcile.py`): the batch's filled
BUY orders. -/
def filledBuys (db : List Order) (batch_id : Nat) : List Order :=
  (batchOrders db batch_id).filter (fun o => o.side = "BUY" ∧ o.status = "filled")

/-- `sell_orders` of `reconcile_batch` (`reconcile.py`): the batch's filled
SELL orders. -/
def filledSells (db : List Order) (batch_id : Nat) : List Order :=
  (batchOrders db batch_id).filter (fun o => o.side = "SELL" ∧ o.status = "filled")

/-- `reconcile_batch` (`app/api/reconcile.py`).  The batch row is looked up
first (404 when absent), then the orders referencing the batch id (404 when
none); the aggregates mirror the source line by line, with the P&L pair
computed only when both the filled-BUY and filled-SELL sublists are
non-empty and left `None` otherwise.  The two `HTTPException(404)` raises
are modelled as `Except.error` with the respective detail strings. -/
def reconcile_batch (batches : List OrderBatch) (db : List Order)
    (batch_id : Nat) : Except String ReconciliationReport :=
  match batches.find? (fun b => b.id = batch_id) with
  | none => Except.error ("Batch " ++ toString batch_id ++ " not found")
  | some _ =>
      let orders := batchOrders db batch_id
      if orders.isEmpty then
        Except.error ("No orders found for batch " ++ toString batch_id)
      else
        let total_orders := orders.length
        let filled_orders := (orders.filter (fun o => o.status = "filled")).length
        let pending_orders :=
          (orders.filter (fun o => o.status = "placed" ∨ o.status = "acked")).length
        let cancelled_orders :=
          (orders.filter (fun o => o.status = "cancelled")).length
        let total_qty := (orders.map (fun o => o.qty)).sum
        let filled_qty :=
          ((orders.filter (fun o => o.status = "filled")).map
            (fun o => pyOr o.fill_qty 0)).sum
        let total_value := sumLimitValue orders
        let filled_value := sumFillValue (orders.filter (fun o => o.status = "filled"))
        let buy_orders := filledBuys db batch_id
        let sell_orders := filledSells db batch_id
        let pnl : Option Rat × Option Rat :=
          if ¬ buy_orders.isEmpty ∧ ¬ sell_orders.isEmpty then
            (some (sumLimitValue sell_orders - sumLimitValue buy_orders),
             some (sumFillValue sell_orders - sumFillValue buy_orders))
          else
            (none, none)
        Except.ok
          { batch_id := batch_id,
            total_orders := total_orders,
            filled_orders := filled_orders,
            pending_orders := pending_orders,
            cancelled_orders := cancelled_orders,
            total_qty := total_qty,
            filled_qty := filled_qty,
            total_value := total_value,
            filled_value := filled_value,
            expected_pnl := pnl.1,
            actual_pnl := pnl.2 }

/-- The process-wide state touched by the batch-submission flow
(`app/api/orders.py`): the Redis idempotency cache (an association list
`key ↦ (cached response, expiry time)` plus an availability flag — on any
Redis error both `check_idempotency` and `store_idempotency` swallow the
exception, i.e. fail open), the two relational tables, the id sequences, the
two singleton mock-connector states of `factory.get_connector`, and a
counter of how many times `connector.place_order` has been invoked
(observability for the at-most-once property; event publication is
fire-and-forget with no effect on any state here, §4.6, and is omitted). -/
structure CachedResponse where
  batch_id : Nat
  status : String
  orders : List Order
  proposed_routing : List RouteDecision
  message : String
deriving Repr, DecidableEq

/-- `OrderBatchResponse` (`app/schemas/order.py`); `orders` carries the
created rows (`OrderRead.model_validate` is a field-for-field copy). -/
def OrderBatchResponse := CachedResponse

structure SysState where
  redis_available : Bool
  cache : List (String × CachedResponse × Nat)
  batches : List OrderBatch
  orders : List Order
  next_batch_id : Nat
  next_order_id : Nat
  zerodha : ConnectorState
  alpaca : ConnectorState
  placements : Nat
deriving Repr, DecidableEq

/-- `check_idempotency(key)` (`app/core/idempotency.py`): a Redis `GET` of
`idempotency:{key}`; returns the cached response when the key is present and
unexpired, `None` otherwise, and `None` (fail open, logged) when Redis is
unavailable. -/
def check_idempotency (s : SysState) (key : String) (now : Nat) :
    Option CachedResponse :=
  if s.redis_available then
    match s.cache.find? (fun e => e.1 = key) with
    | some e => if now < e.2.2 then some e.2.1 else none
    | none => none
  else none

/-- `store_idempotency(key, response, ttl=86400)` (`idempotency.py`): a Redis
`SETEX` overwriting the key with the given TTL (24 h default); a no-op
(fail open, logged) when Redis is unavailable. -/
def store_idempotency (s : SysState) (key : String) (response : CachedResponse)
    (now : Nat) (ttl : Nat := 86400) : SysState :=
  if s.redis_available then
    { s with cache :=
        (key, response, now + ttl) :: s.cache.filter (fun e => e.1 ≠ key) }
  else s

/-- `generate_idempotency_key(data)` (`idempotency.py`): the SHA-256 of the
canonical (sorted-key) JSON of the request body.  The hash is modelled as an
injective deterministic encoding of the body (`reprStr`); the claims under
verification only exercise caller-supplied keys. -/
def generate_idempotency_key (data : OrderBatchCreate) : String :=
  "sha256:" ++ reprStr data

/-- `key = idempotency_key or generate_idempotency_key(batch.dict())`
(`orders.py`): Python truthiness, so a missing **or empty** header falls
back to the generated key. -/
def effectiveKey (batch : OrderBatchCreate) (header_key : Option String) :
    String :=
  match header_key with
  | some k => if k = "" then generate_idempotency_key batch else k
  | none => generate_idempotency_key batch

/-- `get_connector(broker).place_order(...)` as invoked by the placement loop
of `create_order_batch`: dispatch on the broker name to the corresponding
singleton connector (a `ValueError` for an unknown name), thread its state,
and count the invocation. -/
def place_with_broker (s : SysState) (broker : String) (uuid : String)
    (now : Nat) (instrument_id : Nat) (qty : Rat) (side : String)
    (price_limit : Option Rat) : Except String (SysState × OrderResult) :=
  if broker = "zerodha-mock" then
    let r := ZerodhaMockConnector.place_order s.zerodha uuid now instrument_id
      qty side price_limit
    Except.ok ({ s with zerodha := r.1, placements := s.placements + 1 }, r.2)
  else if broker = "alpaca-mock" then
    let r := AlpacaMockConnector.place_order s.alpaca uuid now instrument_id
      qty side price_limit
    Except.ok ({ s with alpaca := r.1, placements := s.placements + 1 }, r.2)
  else
    Except.error ("Unknown broker: " ++ broker)

/-- The per-order half of `create_order_batch`'s main loop (`orders.py`):
place each routed order with its broker, create the `Order` row from the
request data and the broker result (`executed_at` stamped from
`result.timestamp` when the result is `filled`), and collect the created
rows in order.  `uuids` supplies one uuid fragment per placement. -/
def placeLoop (s : SysState) (now : Nat) (uuids : List String)
    (portfolio_id : Nat) (bid : Nat) :
    List (OrderCreate × RouteDecision) → Except String (SysState × List Order)
  | [] => Except.ok (s, [])
  | (od, route) :: rest =>
      match place_with_broker s route.broker (uuids.headD "") now
        od.instrument_id od.qty od.side od.price_limit with
      | Except.error e => Except.error e
      | Except.ok (s1, result) =>
          let order : Order :=
            { id := s1.next_order_id,
              portfolio_id := portfolio_id,
              broker := route.broker,
              instrument_id := od.instrument_id,
              qty := od.qty,
              price_limit := od.price_limit,
              side := od.side,
              status := result.status,
              created_at := now,
              executed_at :=
                if result.status = "filled" then some result.timestamp else none,
              ext_order_id := result.ext_order_id,
              fill_price := result.fill_price,
              fill_qty := result.fill_qty,
              batch_id := some bid }
          let s2 := { s1 with
            orders := s1.orders ++ [order],
            next_order_id := s1.next_order_id + 1 }
          match placeLoop s2 now (uuids.tail) portfolio_id bid rest with
          | Except.error e => Except.error e
          | Except.ok (s3, created) => Except.ok (s3, order :: created)

/-- `create_order_batch` (`app/api/orders.py`), the idempotent
batch-submission flow: resolve the effective key, short-circuit on a cache
hit returning the cached response verbatim and touching nothing, otherwise
validate every order (HTTP 400 on the first failing one), compute the
routing with **no** preferred broker, insert the batch row, place and insert
every order, mark the batch `processing`, build the response and cache it
under the key. -/
def create_order_batch (s : SysState) (now : Nat) (uuids : List String)
    (batch : OrderBatchCreate) (header_key : Option String) :
    Except String (CachedResponse × SysState) :=
  let key := effectiveKey batch header_key
  match check_idempotency s key now with
  | some cached => Except.ok (cached, s)
  | none =>
      match validateBatch batch.orders batch.portfolio_id with
      | Except.error e => Except.error e
      | Except.ok _ =>
          let routing := get_routing_strategy batch.orders none
          let bid := s.next_batch_id
          let batch_row : OrderBatch :=
            { id := bid, user_id := 1, portfolio_id := batch.portfolio_id,
              orders_json := batch.orders, status := "pending",
              created_at := now, idempotency_key := some key }
          let s1 := { s with
            batches := s.batches ++ [batch_row], next_batch_id := bid + 1 }
          match placeLoop s1 now uuids batch.portfolio_id bid
            (batch.orders.zip routing) with
          | Except.error e => Except.error e
          | Except.ok (s2, created) =>
              let markProcessing : OrderBatch → OrderBatch := fun b =>
                if b.id = bid then { b with status := "processing" } else b
              let s3 := { s2 with batches := s2.batches.map markProcessing }
              let response : CachedResponse :=
                { batch_id := bid,
                  status := "processing",
                  orders := created,
                  proposed_routing := routing,
                  message := "Batch " ++ toString bid ++ " created with " ++
                    toString created.length ++ " orders" }
              Except.ok (response, store_idempotency s3 key response now)

/-! ## Concrete fixtures used by counterexamples and witnesses -/

/-- A well-formed BUY limit order used by several witnesses. -/
def wOrder : OrderCreate :=
  { instrument_id := 1, qty := 100, price_limit := some 2500, side := "BUY",
    broker := none }

/-- A well-formed SELL limit order used by several witnesses. -/
def wOrder2 : OrderCreate :=
  { instrument_id := 2, qty := 50, price_limit := some 2600, side := "SELL",
    broker := none }

/-! ## C5 — routing strategy -/

/-- Claim C5, amended (the reason strings are capitalized in the code):
for every order list, an index in range and a known preferred broker,
`get_routing_strategy` assigns that broker at that index with reason
`"Preferred broker specified"`; and whenever the preferred-broker argument
is not truthy-and-known (absent, empty, or unknown), the entry at the index
is the deterministic parity default with reason
`"Default routing strategy"`. -/
theorem routing_preferred_and_default (orders : List OrderCreate) (i : Nat)
    (hi : i < orders.length) :
    (∀ pb : String, pb ∈ knownBrokers →
      (get_routing_strategy orders (some pb))[i]? =
        some { order_index := i, broker := pb,
               reason := "Preferred broker specified" }) ∧
    (∀ pb : Option String, preferredIsValid pb = false →
      (get_routing_strategy orders pb)[i]? =
        some { order_index := i, broker := defaultBroker i,
               reason := "Default routing strategy" }) := by
  constructor
  · intro pb hpb
    have hvalid : preferredIsValid (some pb) = true := by
      simp only [knownBrokers, List.mem_cons, List.not_mem_nil, or_false] at hpb
      rcases hpb with h | h <;> subst h <;> decide
    simp [get_routing_strategy, hvalid, List.getElem?_range, hi]
  · intro pb hpb
    simp [get_routing_strategy, hpb, List.getElem?_range, hi]

/-- Claim C5 as frozen is false on the code: at a concrete one-order batch
with the known preferred broker `"zerodha-mock"`, the routing reason is the
code's `"Preferred broker specified"`, not the claim's lower-case
`"preferred broker specified"` (and for the default branch
`"Default routing strategy"`, not `"default routing strategy"`). -/
theorem routing_reason_case_cex :
    get_routing_strategy [wOrder] (some "zerodha-mock") =
      [{ order_index := 0, broker := "zerodha-mock",
         reason := "Preferred broker specified" }] ∧
    "Preferred broker specified" ≠ "preferred broker specified" ∧
    get_routing_strategy [wOrder] none =
      [{ order_index := 0, broker := "zerodha-mock",
         reason := "Default routing strategy" }] ∧
    "Default routing strategy" ≠ "default routing strategy" := by
  refine ⟨rfl, by decide, rfl, by decide⟩

/-- Witness for C5: the amended theorem applied to a two-order batch at
index 1, once with preferred broker `"alpaca-mock"` and once with no
preference. -/
theorem routing_preferred_and_default_witness :
    (get_routing_strategy [wOrder, wOrder2] (some "alpaca-mock"))[1]? =
      some { order_index := 1, broker := "alpaca-mock",
             reason := "Preferred broker specified" } ∧
    (get_routing_strategy [wOrder, wOrder2] none)[1]? =
      some { order_index := 1, broker := "alpaca-mock",
             reason := "Default routing strategy" } := by
  have T := routing_preferred_and_default [wOrder, wOrder2] 1 (by decide)
  exact ⟨T.1 "alpaca-mock" (by decide), T.2 none rfl⟩

/-! ## C7 — mock connector placement -/

/-- Claim C7, amended: the simulated-fill lookup in
`AlpacaMockConnector.place_order` is keyed by the **`instrument_id`
argument** of the call, not by the internal order id under which
`set_simulated_fill` registered the fill.  With that key: a registered fill
yields a `filled` result carrying exactly the registered price and quantity,
otherwise the result is `placed` with a freshly generated, non-null external
order id (built from the incremented per-connector counter) and no fill
fields; in both cases the counter advances, so successive external ids are
distinct. -/
theorem alpaca_place_order_spec (s : ConnectorState) (uuid : String)
    (now instrument_id : Nat) (qty : Rat) (side : String)
    (price_limit : Option Rat) :
    (AlpacaMockConnector.place_order s uuid now instrument_id qty side
        price_limit).1.order_counter = s.order_counter + 1 ∧
    (∀ p q : Rat, get_simulated_fill s instrument_id = some (p, q) →
      (AlpacaMockConnector.place_order s uuid now instrument_id qty side
          price_limit).2 =
        { success := true,
          ext_order_id :=
            some ("ALPACA-" ++ toString (s.order_counter + 1) ++ "-" ++ uuid),
          status := "filled", fill_price := some p, fill_qty := some q,
          error_message := none, timestamp := now }) ∧
    (get_simulated_fill s instrument_id = none →
      (AlpacaMockConnector.place_order s uuid now instrument_id qty side
          price_limit).2 =
        { success := true,
          ext_order_id :=
            some ("ALPACA-" ++ toString (s.order_counter + 1) ++ "-" ++ uuid),
          status := "placed", fill_price := none, fill_qty := none,
          error_message := none, timestamp := now }) := by
  refine ⟨?_, ?_, ?_⟩
  · unfold AlpacaMockConnector.place_order
    cases h : get_simulated_fill s instrument_id <;> simp [h]
  · intro p q h
    unfold AlpacaMockConnector.place_order
    simp [h]
  · intro h
    unfold AlpacaMockConnector.place_order
    simp [h]

/-- An empty connector state, as `AlpacaMockConnector.__init__` builds it. -/
def alpacaInit : ConnectorState :=
  { broker_name := "alpaca-mock", order_counter := 0, simulated_fills := [] }

/-- Claim C7 as frozen is false on the code: register a simulated fill for
internal order id 1 (the order being placed), then place that order, whose
instrument id is 100 — `place_order` looks the table up under the
`instrument_id` argument, finds nothing, and returns `placed`, not the
`filled` result the claim promises for an order with a registered fill. -/
theorem alpaca_lookup_not_by_order_id_cex :
    get_simulated_fill (set_simulated_fill alpacaInit 1 10 5) 1 =
      some (10, 5) ∧
    (AlpacaMockConnector.place_order (set_simulated_fill alpacaInit 1 10 5)
        "00AB12CD" 7 100 2 "BUY" none).2.status = "placed" ∧
    "placed" ≠ "filled" := by
  refine ⟨rfl, rfl, by decide⟩

/-- Witness for C7: the amended theorem applied at a concrete state — a fill
registered under key 7 produces a `filled` result when instrument 7 is
placed, and the fresh-placement branch on the empty table. -/
theorem alpaca_place_order_spec_witness :
    (AlpacaMockConnector.place_order (set_simulated_fill alpacaInit 7 10 5)
        "00AB12CD" 3 7 2 "BUY" none).2 =
      { success := true, ext_order_id := some "ALPACA-1-00AB12CD",
        status := "filled", fill_price := some 10, fill_qty := some 5,
        error_message := none, timestamp := 3 } ∧
    (AlpacaMockConnector.place_order alpacaInit "00AB12CD" 3 7 2 "BUY"
        none).2 =
      { success := true, ext_order_id := some "ALPACA-1-00AB12CD",
        status := "placed", fill_price := none, fill_qty := none,
        error_message := none, timestamp := 3 } := by
  have T1 := alpaca_place_order_spec (set_simulated_fill alpacaInit 7 10 5)
    "00AB12CD" 3 7 2 "BUY" none
  have T2 := alpaca_place_order_spec alpacaInit "00AB12CD" 3 7 2 "BUY" none
  exact ⟨T1.2.1 10 5 rfl, T2.2.2 rfl⟩

/-! ## C6 — validator estimated value and margin rule -/

/-- Claim C6, amended: the `estimated_value` returned on success is
`quantity × (price_limit or 0)` — for a market order (no price limit) it is
`0`, not `quantity ×` the fallback reference price; the fallback reference
price `1000.0` is used only inside the margin rule, which flags a violation
exactly when `quantity × (price_limit or 1000)` exceeds the hard-coded
`1000000` margin ceiling, and a margin violation makes `validate` fail. -/
theorem validator_margin_and_estimated_value (o : OrderCreate) (pid : Nat) :
    ((OrderValidator.check_margin o pid).1 = false ↔
      o.qty * pyOr o.price_limit 1000 > 1000000) ∧
    ((OrderValidator.check_margin o pid).1 = false →
      (OrderValidator.validate o pid none).isOk = false) ∧
    (∀ v : Rat, OrderValidator.validate o pid none = Except.ok v →
      v = o.qty * pyOr o.price_limit 0 ∧
      (OrderValidator.check_margin o pid).1 = true) := by
  have hmargin : (OrderValidator.check_margin o pid).1 = false ↔
      o.qty * pyOr o.price_limit 1000 > 1000000 := by
    by_cases hc : o.qty * pyOr o.price_limit 1000 > 1000000 <;>
      simp [OrderValidator.check_margin, hc]
  refine ⟨hmargin, ?_, ?_⟩
  · intro hm
    have h4 : OrderValidator.validationErrors o pid none ≠ [] := by
      intro hnil
      simp only [OrderValidator.validationErrors, settings,
        List.append_eq_nil] at hnil
      obtain ⟨⟨⟨⟨-, -⟩, -⟩, h4⟩, -⟩ := hnil
      rw [hm] at h4
      simp at h4
    simp [OrderValidator.validate, List.isEmpty_iff, h4, Except.isOk,
      Except.toBool]
  · intro v hv
    simp only [OrderValidator.validate] at hv
    by_cases he : (OrderValidator.validationErrors o pid none).isEmpty
    · rw [if_pos he] at hv
      have hnil : OrderValidator.validationErrors o pid none = [] :=
        List.isEmpty_iff.mp he
      refine ⟨(Except.ok.inj hv).symm, ?_⟩
      simp only [OrderValidator.validationErrors, settings,
        List.append_eq_nil] at hnil
      obtain ⟨⟨⟨⟨-, -⟩, -⟩, h4⟩, -⟩ := hnil
      by_cases hm : (OrderValidator.check_margin o pid).1 = true
      · exact hm
      · rw [Bool.not_eq_true] at hm
        rw [hm] at h4
        simp at h4
    · rw [if_neg he] at hv
      cases hv

/-- Claim C6 as frozen is false on the code: for the market order
`qty = 5, price_limit = None`, `validate` succeeds with
`estimated_value = 0` (`qty × (price_limit or 0)`), not
`qty × 1000 = 5000` (`quantity ×` the fallback reference price the margin
rule uses). -/
theorem validator_estimated_value_cex :
    OrderValidator.validate
      { instrument_id := 1, qty := 5, price_limit := none, side := "BUY",
        broker := none } 1 none = Except.ok 0 ∧
    (5 : Rat) * 1000 = 5000 ∧ (0 : Rat) ≠ 5000 := by
  refine ⟨?_, by norm_num, by norm_num⟩
  simp [OrderValidator.validate, OrderValidator.validationErrors,
    OrderValidator.check_margin, settings, pyOr]
  norm_num

/-- Witness for C6: the amended theorem applied to the concrete limit order
`qty = 100, price_limit = 2500` — `validate` succeeds with
`estimated_value = 250000` and the margin check passes — and to the
concrete order `qty = 2000, price_limit = 2500` whose margin estimate
`5000000` exceeds the ceiling, so `validate` fails. -/
theorem validator_margin_and_estimated_value_witness :
    ((250000 : Rat) = wOrder.qty * pyOr wOrder.price_limit 0 ∧
      (OrderValidator.check_margin wOrder 1).1 = true) ∧
    (OrderValidator.validate
      { instrument_id := 1, qty := 2000, price_limit := some 2500,
        side := "BUY", broker := none } 1 none).isOk = false := by
  constructor
  · exact (validator_margin_and_estimated_value wOrder 1).2.2 250000 (by
      simp [OrderValidator.validate, OrderValidator.validationErrors,
        OrderValidator.check_margin, settings, pyOr, wOrder]
      norm_num)
  · exact (validator_margin_and_estimated_value
      { instrument_id := 1, qty := 2000, price_limit := some 2500,
        side := "BUY", broker := none } 1).2.1 (by
      simp [OrderValidator.check_margin, pyOr]
      norm_num)

/-! ## C3 — aggregated validation errors -/

/-- Claim C3, amended: a batch containing an invalid order fails with a
single aggregated error, but the aggregation spans only the **first**
failing order — its message is the semicolon-joined list of every rule that
order violates (all its rules evaluated), while orders after it are never
examined; orders before it must all be valid. -/
theorem batch_validation_first_failure (good : List OrderCreate)
    (bad : OrderCreate) (rest : List OrderCreate) (pid : Nat)
    (hgood : ∀ o ∈ good, OrderValidator.validationErrors o pid none = [])
    (hbad : OrderValidator.validationErrors bad pid none ≠ []) :
    validateBatch (good ++ bad :: rest) pid =
      Except.error ("Order validation failed: " ++
        String.intercalate "; "
          (OrderValidator.validationErrors bad pid none)) := by
  induction good with
  | nil =>
      have he : (OrderValidator.validationErrors bad pid none).isEmpty = false := by
        simpa [List.isEmpty_iff] using hbad
      simp [validateBatch, OrderValidator.validate, he]
  | cons o good' ih =>
      have ho : OrderValidator.validationErrors o pid none = [] :=
        hgood o (List.mem_cons_self o good')
      have ih' := ih (fun x hx => hgood x (List.mem_cons_of_mem o hx))
      simp only [List.cons_append, validateBatch, OrderValidator.validate, ho]
      simpa using ih'

/-- A batch order with an invalid side, reaching the validator's own side
rule (spec §8 exercises the validator with side values like `"HOLD"`). -/
def cOrderHold : OrderCreate :=
  { instrument_id := 1, qty := 100, price_limit := none, side := "HOLD",
    broker := none }

/-- A second invalid order, violating the side rule with a different
message. -/
def cOrderXx : OrderCreate :=
  { instrument_id := 2, qty := 100, price_limit := none, side := "XX",
    broker := none }

/-- Claim C3 as frozen is false on the code: for the concrete two-order
batch `[cOrderHold, cOrderXx]`, both orders violate a rule, but the error
message produced by the submission flow mentions only the first order's
violation — it is not the semicolon-joined list of every violated rule
across every order in the batch. -/
theorem batch_validation_not_across_orders_cex :
    validateBatch [cOrderHold, cOrderXx] 1 =
      Except.error
        "Order validation failed: Invalid side: HOLD. Must be BUY or SELL" ∧
    OrderValidator.validationErrors cOrderXx 1 none =
      ["Invalid side: XX. Must be BUY or SELL"] ∧
    "Order validation failed: Invalid side: HOLD. Must be BUY or SELL" ≠
      "Order validation failed: " ++ String.intercalate "; "
        (OrderValidator.validationErrors cOrderHold 1 none ++
         OrderValidator.validationErrors cOrderXx 1 none) := by
  have h1 : OrderValidator.validationErrors cOrderHold 1 none =
      ["Invalid side: HOLD. Must be BUY or SELL"] := by
    simp [OrderValidator.validationErrors, OrderValidator.check_margin,
      settings, pyOr, cOrderHold]
    norm_num
  have h2 : OrderValidator.validationErrors cOrderXx 1 none =
      ["Invalid side: XX. Must be BUY or SELL"] := by
    simp [OrderValidator.validationErrors, OrderValidator.check_margin,
      settings, pyOr, cOrderXx]
    norm_num
  refine ⟨?_, h2, ?_⟩
  · have T := batch_validation_first_failure [] cOrderHold [cOrderXx] 1
      (by intro o ho; cases ho) (by rw [h1]; intro h; cases h)
    rw [h1] at T
    exact T.trans rfl
  · rw [h1, h2]
    decide

/-- Witness for C3: the amended theorem applied to the concrete batch
`[wOrder, cOrderHold, cOrderXx]` — one valid order, then a failing one,
then a further (unexamined) failing one. -/
theorem batch_validation_first_failure_witness :
    validateBatch [wOrder, cOrderHold, cOrderXx] 1 =
      Except.error
        "Order validation failed: Invalid side: HOLD. Must be BUY or SELL" := by
  have h1 : OrderValidator.validationErrors cOrderHold 1 none =
      ["Invalid side: HOLD. Must be BUY or SELL"] := by
    simp [OrderValidator.validationErrors, OrderValidator.check_margin,
      settings, pyOr, cOrderHold]
    norm_num
  have T := batch_validation_first_failure [wOrder] cOrderHold [cOrderXx] 1
    (by
      intro o ho
      simp only [List.mem_singleton] at ho
      subst ho
      simp [OrderValidator.validationErrors, OrderValidator.check_margin,
        settings, pyOr, wOrder]
      norm_num)
    (by rw [h1]; intro h; cases h)
  rw [h1] at T
  exact T.trans rfl

/-! ## C2 — backward status transitions -/

/-- A persisted order already in status `filled`. -/
def oFilledRow : Order :=
  { id := 1, portfolio_id := 1, broker := "zerodha-mock", instrument_id := 1,
    qty := 100, price_limit := some 2500, side := "BUY", status := "filled",
    created_at := 0, executed_at := some 5, ext_order_id := some "ZERODHA-1-u1",
    fill_price := some 2500, fill_qty := some 100, batch_id := some 1 }

/-- Claim C2 evaluated at its failing input: the lifecycle manager accepts
the backward transition `filled → placed` and silently applies it — the call
succeeds (no integrity error), the stored status becomes `placed`, and an
`order.placed` event (old status `filled`) is emitted.  Nothing in
`update_order_status` compares the new status with the old one. -/
theorem filled_to_placed_silently_applied :
    oFilledRow.status = "filled" ∧
    update_order_status [oFilledRow] 1 "placed" none none none 9 =
      Except.ok ([{ oFilledRow with status := "placed" }],
        { event_type := "order.placed", order_id := 1, portfolio_id := 1,
          broker := "zerodha-mock", instrument_id := 1, qty := 100,
          side := "BUY", status := "placed", old_status := "filled",
          fill_price := none, fill_qty := none, ext_order_id := none,
          timestamp := 9 }) := by
  exact ⟨rfl, rfl⟩

/-! ## C8 — fill price and quantity set together -/

/-- A persisted order with no fill data yet. -/
def oPlacedRow : Order :=
  { id := 1, portfolio_id := 1, broker := "zerodha-mock", instrument_id := 1,
    qty := 100, price_limit := none, side := "BUY", status := "placed",
    created_at := 0, executed_at := none, ext_order_id := some "ZERODHA-1-u1",
    fill_price := none, fill_qty := none, batch_id := some 1 }

/-- Claim C8 as frozen is false on the code: `update_order_status` applies
`fill_price` and `fill_qty` each independently when supplied, so the
concrete call below (new status `acked`, `fill_price = 2500`,
`fill_qty = None`) leaves the order with `fill_price` non-null and
`fill_qty` null. -/
theorem fill_fields_set_independently_cex :
    update_order_status [oPlacedRow] 1 "acked" (some 2500) none none 3 =
      Except.ok ([{ oPlacedRow with status := "acked", fill_price := some 2500 }],
        { event_type := "order.acked", order_id := 1, portfolio_id := 1,
          broker := "zerodha-mock", instrument_id := 1, qty := 100,
          side := "BUY", status := "acked", old_status := "placed",
          fill_price := some 2500, fill_qty := none, ext_order_id := none,
          timestamp := 3 }) ∧
    ({ oPlacedRow with
        status := "acked",
        fill_price := some 2500 } : Order).fill_price.isSome = true ∧
    ({ oPlacedRow with
        status := "acked",
        fill_price := some 2500 } : Order).fill_qty.isSome = false := by
  exact ⟨rfl, rfl, rfl⟩

/-- Claim C8, amended: `update_status` overwrites `fill_price` and
`fill_qty` each only when that argument is supplied, so a caller can set
them independently; the fill path `process_fill` (used by the
simulate-fill endpoint) always supplies both, and after it every row with
the processed order id carries both fields non-null. -/
theorem process_order_fill_sets_both (db : List Order) (order_id : Nat)
    (p q : Rat) (now : Nat) (o : Order)
    (ho : db.find? (fun x => x.id = order_id) = some o) :
    ∃ db' ev, process_order_fill db order_id p q now = Except.ok (db', ev) ∧
      ∀ o' ∈ db', o'.id = order_id →
        o'.fill_price = some p ∧ o'.fill_qty = some q := by
  simp only [process_order_fill, update_order_status, ho]
  refine ⟨_, _, rfl, ?_⟩
  intro o' ho' hid
  rw [List.mem_map] at ho'
  obtain ⟨x, hx, hmap⟩ := ho'
  by_cases hxid : x.id = order_id
  · rw [if_pos hxid] at hmap
    rw [← hmap]
    exact ⟨rfl, rfl⟩
  · rw [if_neg hxid] at hmap
    rw [← hmap] at hid
    exact absurd hid hxid

/-- The row `oPlacedRow` after `process_fill(1, 2500, 100)` at time 4. -/
def oFilledAfterRow : Order :=
  { oPlacedRow with
    status := "filled", executed_at := some 4,
    fill_price := some 2500, fill_qty := some 100 }

/-- Witness for C8: the amended theorem applied to the concrete table
`[oPlacedRow]`. -/
theorem process_order_fill_sets_both_witness :
    oFilledAfterRow.fill_price = some 2500 ∧
    oFilledAfterRow.fill_qty = some 100 := by
  obtain ⟨db', ev, heq, hall⟩ :=
    process_order_fill_sets_both [oPlacedRow] 1 2500 100 4 oPlacedRow rfl
  have hconc : process_order_fill [oPlacedRow] 1 2500 100 4 =
      Except.ok ([oFilledAfterRow],
        { event_type := "order.filled", order_id := 1, portfolio_id := 1,
          broker := "zerodha-mock", instrument_id := 1, qty := 100,
          side := "BUY", status := "filled", old_status := "placed",
          fill_price := some 2500, fill_qty := some 100, ext_order_id := none,
          timestamp := 4 }) := rfl
  rw [hconc] at heq
  have hdb : db' = [oFilledAfterRow] := by
    cases heq.symm
    rfl
  exact hall oFilledAfterRow (by rw [hdb]; exact List.mem_singleton_self _) rfl

/-! ## C4 — reconciliation P&L -/

/-- Claim C4: `reconcile_batch` computes `actual_pnl` and `expected_pnl` if
and only if the batch has at least one filled BUY **and** at least one
filled SELL order; when computed,
`actual_pnl = Σ(fill_price × fill_qty | filled SELL) − Σ(fill_price ×
fill_qty | filled BUY)` (a missing fill field reading as 0, as in the code)
and `expected_pnl` is the same with `price_limit × qty`; when not computed,
both fields are `None`, not zero. -/
theorem reconcile_pnl_iff (batches : List OrderBatch) (db : List Order)
    (bid : Nat) (report : ReconciliationReport)
    (h : reconcile_batch batches db bid = Except.ok report) :
    (report.actual_pnl.isSome ↔
      filledBuys db bid ≠ [] ∧ filledSells db bid ≠ []) ∧
    (report.expected_pnl.isSome ↔ report.actual_pnl.isSome) ∧
    (filledBuys db bid ≠ [] → filledSells db bid ≠ [] →
      report.actual_pnl =
        some (sumFillValue (filledSells db bid) -
          sumFillValue (filledBuys db bid)) ∧
      report.expected_pnl =
        some (sumLimitValue (filledSells db bid) -
          sumLimitValue (filledBuys db bid))) ∧
    (filledBuys db bid = [] ∨ filledSells db bid = [] →
      report.actual_pnl = none ∧ report.expected_pnl = none) := by
  rw [reconcile_batch] at h
  cases hb : batches.find? (fun b => b.id = bid) with
  | none => simp only [hb] at h; exact Except.noConfusion h
  | some b =>
      simp only [hb] at h
      by_cases he : (batchOrders db bid).isEmpty
      · simp only [if_pos he] at h; exact Except.noConfusion h
      · simp only [if_neg he] at h
        have hrep := (Except.ok.inj h).symm
        subst hrep
        by_cases hbuy : filledBuys db bid = []
        · refine ⟨?_, ?_, ?_, ?_⟩
          · simp [hbuy]
          · simp [hbuy]
          · intro hbuy' _
            exact absurd hbuy hbuy'
          · intro _
            simp [hbuy]
        · by_cases hsell : filledSells db bid = []
          · refine ⟨?_, ?_, ?_, ?_⟩
            · simp [hsell]
            · simp [hsell]
            · intro _ hsell'
              exact absurd hsell hsell'
            · intro _
              simp [hsell]
          · refine ⟨?_, ?_, ?_, ?_⟩
            · simp [hbuy, hsell]
            · simp [hbuy, hsell]
            · intro _ _
              exact ⟨by simp [hbuy, hsell], by simp [hbuy, hsell]⟩
            · intro hor
              rcases hor with hor | hor
              · exact absurd hor hbuy
              · exact absurd hor hsell

/-- Batch row fixture for the reconciliation witnesses. -/
def bW : OrderBatch :=
  { id := 1, user_id := 1, portfolio_id := 1, orders_json := [],
    status := "processing", created_at := 0, idempotency_key := some "w" }

/-- A filled BUY of 100 units at fill price 2500 (spec §8's P&L example). -/
def obuyW : Order :=
  { id := 1, portfolio_id := 1, broker := "zerodha-mock", instrument_id := 1,
    qty := 100, price_limit := some 2500, side := "BUY", status := "filled",
    created_at := 0, executed_at := some 1, ext_order_id := some "Z1",
    fill_price := some 2500, fill_qty := some 100, batch_id := some 1 }

/-- A filled SELL of 50 units at fill price 2600 (spec §8's P&L example). -/
def osellW : Order :=
  { id := 2, portfolio_id := 1, broker := "alpaca-mock", instrument_id := 2,
    qty := 50, price_limit := some 2600, side := "SELL", status := "filled",
    created_at := 0, executed_at := some 1, ext_order_id := some "A1",
    fill_price := some 2600, fill_qty := some 50, batch_id := some 1 }

/-- The reconciliation report of the two-order batch `[obuyW, osellW]`:
`actual_pnl = 2600·50 − 2500·100 = −120000`. -/
def reportW : ReconciliationReport :=
  { batch_id := 1, total_orders := 2, filled_orders := 2, pending_orders := 0,
    cancelled_orders := 0, total_qty := 150, filled_qty := 150,
    total_value := 380000, filled_value := 380000,
    expected_pnl := some (-120000), actual_pnl := some (-120000) }

/-- The reconciliation report of the BUY-only batch `[obuyW]`: both P&L
fields absent. -/
def reportBuyOnly : ReconciliationReport :=
  { batch_id := 1, total_orders := 1, filled_orders := 1, pending_orders := 0,
    cancelled_orders := 0, total_qty := 100, filled_qty := 100,
    total_value := 250000, filled_value := 250000,
    expected_pnl := none, actual_pnl := none }

/-- Witness for C4: the theorem applied to the concrete mixed batch (P&L
`−120000`) and to the BUY-only batch (P&L fields `None`). -/
theorem reconcile_pnl_iff_witness :
    reportW.actual_pnl.isSome = true ∧
    reportW.actual_pnl = some (-120000) ∧
    reportBuyOnly.actual_pnl = none ∧
    reportBuyOnly.expected_pnl = none := by
  have hconc : reconcile_batch [bW] [obuyW, osellW] 1 = Except.ok reportW := by
    simp [reconcile_batch, batchOrders, filledBuys, filledSells, sumFillValue,
      sumLimitValue, pyOr, bW, obuyW, osellW, reportW]
    norm_num
  have T := reconcile_pnl_iff [bW] [obuyW, osellW] 1 reportW hconc
  have hbuy : filledBuys [obuyW, osellW] 1 ≠ [] := by
    simp [filledBuys, batchOrders, obuyW, osellW]
  have hsell : filledSells [obuyW, osellW] 1 ≠ [] := by
    simp [filledSells, batchOrders, obuyW, osellW]
  have hconc2 : reconcile_batch [bW] [obuyW] 1 = Except.ok reportBuyOnly := by
    simp [reconcile_batch, batchOrders, filledBuys, filledSells, sumFillValue,
      sumLimitValue, pyOr, bW, obuyW, reportBuyOnly]
    norm_num
  have T2 := reconcile_pnl_iff [bW] [obuyW] 1 reportBuyOnly hconc2
  have hsell2 : filledSells [obuyW] 1 = [] := by
    simp [filledSells, batchOrders, obuyW]
  exact ⟨T.1.mpr ⟨hbuy, hsell⟩, rfl, (T2.2.2.2 (Or.inr hsell2)).1,
    (T2.2.2.2 (Or.inr hsell2)).2⟩

/-! ## C9 — reconcile not-found conditions -/

/-- Claim C9: whenever no batch row has the requested id, or no order
references it, `reconcile_batch` returns the corresponding 404 error (the
batch check runs first), never a degenerate zero report. -/
theorem reconcile_not_found (batches : List OrderBatch) (db : List Order)
    (bid : Nat)
    (h : batches.find? (fun b => b.id = bid) = none ∨
      batchOrders db bid = []) :
    reconcile_batch batches db bid =
      Except.error (if batches.find? (fun b => b.id = bid) = none
        then "Batch " ++ toString bid ++ " not found"
        else "No orders found for batch " ++ toString bid) := by
  rcases h with h | h
  · simp [reconcile_batch, h]
  · cases hb : batches.find? (fun b => b.id = bid) with
    | none => simp [reconcile_batch, hb]
    | some b => simp [reconcile_batch, hb, h]

/-- Witness for C9: the theorem applied to an empty batch table (unknown
batch id) and to a known batch with no orders. -/
theorem reconcile_not_found_witness :
    reconcile_batch [] [] 3 = Except.error "Batch 3 not found" ∧
    reconcile_batch [bW] [] 1 =
      Except.error "No orders found for batch 1" := by
  constructor
  · have T := reconcile_not_found [] [] 3 (Or.inl rfl)
    simpa using T
  · have T := reconcile_not_found [bW] [] 1 (Or.inr rfl)
    simpa [bW] using T

/-! ## C1 and C10 — idempotent batch submission and routing invocation -/

/-- A successful `place_with_broker` call changes neither the Redis
availability flag nor the idempotency cache. -/
theorem place_with_broker_preserves (s : SysState) (broker uuid : String)
    (now : Nat) (iid : Nat) (q : Rat) (sd : String) (pl : Option Rat)
    (s' : SysState) (r : OrderResult)
    (h : place_with_broker s broker uuid now iid q sd pl = Except.ok (s', r)) :
    s'.redis_available = s.redis_available ∧ s'.cache = s.cache := by
  unfold place_with_broker at h
  split_ifs at h
  all_goals
    first
      | exact Except.noConfusion h
      | (simp only [Except.ok.injEq, Prod.mk.injEq] at h
         obtain ⟨hs, -⟩ := h
         subst hs
         exact ⟨rfl, rfl⟩)

/-- The placement loop of `create_order_batch` changes neither the Redis
availability flag nor the idempotency cache. -/
theorem placeLoop_preserves (routed : List (OrderCreate × RouteDecision))
    (s : SysState) (now : Nat) (uuids : List String) (pid bid : Nat)
    (s' : SysState) (created : List Order)
    (h : placeLoop s now uuids pid bid routed = Except.ok (s', created)) :
    s'.redis_available = s.redis_available ∧ s'.cache = s.cache := by
  induction routed generalizing s uuids s' created with
  | nil =>
      simp only [placeLoop, Except.ok.injEq, Prod.mk.injEq] at h
      obtain ⟨⟨hs, -⟩, -⟩ := And.intro h trivial
      subst hs
      exact ⟨rfl, rfl⟩
  | cons hd tl ih =>
      rw [placeLoop] at h
      cases hp : place_with_broker s hd.2.broker (uuids.headD "") now
          hd.1.instrument_id hd.1.qty hd.1.side hd.1.price_limit with
      | error e => rw [hp] at h; exact Except.noConfusion h
      | ok pr =>
          obtain ⟨s1, result⟩ := pr
          rw [hp] at h
          dsimp only at h
          split at h
          · exact Except.noConfusion h
          · rename_i s3 created2 hrec
            simp only [Except.ok.injEq, Prod.mk.injEq] at h
            obtain ⟨hs', -⟩ := h
            subst hs'
            obtain ⟨hs, hc⟩ := ih _ _ _ _ hrec
            obtain ⟨hp1, hp2⟩ := place_with_broker_preserves s hd.2.broker
              (uuids.headD "") now hd.1.instrument_id hd.1.qty hd.1.side
              hd.1.price_limit s1 result hp
            exact ⟨hs.trans hp1, hc.trans hp2⟩

/-- Inversion of a successful fresh (cache-miss) batch submission: the
response's routing is `get_routing_strategy` with **no** preferred broker,
its batch id and status are those of the new batch row, and the final state
is the state after the placement loop (same Redis availability as at entry)
with the response stored under the effective idempotency key. -/
theorem create_order_batch_ok_inversion (s : SysState) (now : Nat)
    (uuids : List String) (batch : OrderBatchCreate)
    (header_key : Option String) (r : CachedResponse) (s' : SysState)
    (hfresh : check_idempotency s (effectiveKey batch header_key) now = none)
    (h : create_order_batch s now uuids batch header_key = Except.ok (r, s')) :
    r.proposed_routing = get_routing_strategy batch.orders none ∧
    r.batch_id = s.next_batch_id ∧
    r.status = "processing" ∧
    ∃ s3 : SysState, s3.redis_available = s.redis_available ∧
      s' = store_idempotency s3 (effectiveKey batch header_key) r now := by
  rw [create_order_batch] at h
  dsimp only at h
  rw [hfresh] at h
  dsimp only at h
  split at h
  · exact Except.noConfusion h
  · rename_i u hv
    split at h
    · exact Except.noConfusion h
    · rename_i s2 created hp
      simp only [Except.ok.injEq, Prod.mk.injEq] at h
      obtain ⟨hr, hs'⟩ := h
      subst hr
      subst hs'
      refine ⟨rfl, rfl, rfl, _, ?_, rfl⟩
      exact (placeLoop_preserves _ _ _ _ _ _ _ _ hp).1

/-- Claim C1: a batch submitted a second time with the same (non-empty)
idempotency key within the 24 h TTL, after a successful fresh first
submission with the cache available, returns **the first submission's
response and leaves the state untouched** — in particular the placement
counter does not move, so no additional `connector.place_order` happens. -/
theorem idempotent_second_submission (s : SysState) (t1 t2 : Nat)
    (u1 u2 : List String) (b : OrderBatchCreate) (k : String)
    (r1 : CachedResponse) (s1 : SysState)
    (hk : k ≠ "")
    (hredis : s.redis_available = true)
    (hfresh : check_idempotency s k t1 = none)
    (h1 : create_order_batch s t1 u1 b (some k) = Except.ok (r1, s1))
    (httl : t2 < t1 + 86400) :
    create_order_batch s1 t2 u2 b (some k) = Except.ok (r1, s1) := by
  have hkey : effectiveKey b (some k) = k := by simp [effectiveKey, hk]
  have hfresh' : check_idempotency s (effectiveKey b (some k)) t1 = none := by
    rw [hkey]; exact hfresh
  obtain ⟨-, -, -, s3, hs3redis, hs1⟩ :=
    create_order_batch_ok_inversion s t1 u1 b (some k) r1 s1 hfresh' h1
  have hs3 : s3.redis_available = true := hs3redis.trans hredis
  have hcache : s1.cache =
      (k, r1, t1 + 86400) :: s3.cache.filter (fun e => e.1 ≠ k) := by
    rw [hs1, hkey]
    simp [store_idempotency, hs3]
  have hredis1 : s1.redis_available = true := by
    rw [hs1]
    unfold store_idempotency
    split
    · exact hs3
    · exact hs3
  have hcheck : check_idempotency s1 k t2 = some r1 := by
    rw [check_idempotency, hredis1]
    simp only [if_true, hcache, List.find?]
    simp [httl]
  rw [create_order_batch]
  dsimp only
  rw [hkey, hcheck]

/-- Claim C10: for a successful fresh batch submission, the response's
proposed routing is exactly `get_routing_strategy(validated_orders)` with no
preferred broker — whatever broker values the client supplied per order —
so every entry carries the index-parity default broker and reason
`"Default routing strategy"`. -/
theorem batch_routing_ignores_client_broker (s : SysState) (t : Nat)
    (uuids : List String) (b : OrderBatchCreate) (header_key : Option String)
    (r : CachedResponse) (s' : SysState)
    (hfresh : check_idempotency s (effectiveKey b header_key) t = none)
    (h : create_order_batch s t uuids b header_key = Except.ok (r, s')) :
    r.proposed_routing = get_routing_strategy b.orders none ∧
    ∀ rd ∈ r.proposed_routing, rd.reason = "Default routing strategy" ∧
      rd.broker = defaultBroker rd.order_index := by
  obtain ⟨hroute, -, -, -⟩ :=
    create_order_batch_ok_inversion s t uuids b header_key r s' hfresh h
  refine ⟨hroute, ?_⟩
  intro rd hrd
  rw [hroute] at hrd
  simp only [get_routing_strategy, preferredIsValid, Bool.false_eq_true,
    if_false, List.mem_map, List.mem_range] at hrd
  obtain ⟨i, -, hi⟩ := hrd
  subst hi
  exact ⟨rfl, rfl⟩

/-- Initial system state: empty cache and tables, Redis available, both
singleton connectors freshly constructed. -/
def s0w : SysState :=
  { redis_available := true, cache := [], batches := [], orders := [],
    next_batch_id := 1, next_order_id := 1,
    zerodha := { broker_name := "zerodha-mock", order_counter := 0,
                 simulated_fills := [] },
    alpaca := alpacaInit, placements := 0 }

/-- A one-order batch request whose order carries a client-supplied broker
preference (`"alpaca-mock"`) — which the submission flow ignores. -/
def bcw : OrderBatchCreate :=
  { portfolio_id := 1,
    orders := [{ instrument_id := 1, qty := 100, price_limit := none,
                 side := "BUY", broker := some "alpaca-mock" }],
    idempotency_key := none }

/-- The order row created by submitting `bcw` at time 10: routed to
`zerodha-mock` (index 0 of the parity default), placed, not filled. -/
def order1w : Order :=
  { id := 1, portfolio_id := 1, broker := "zerodha-mock", instrument_id := 1,
    qty := 100, price_limit := none, side := "BUY", status := "placed",
    created_at := 10, executed_at := none, ext_order_id := some "ZERODHA-1-u1",
    fill_price := none, fill_qty := none, batch_id := some 1 }

/-- The response of submitting `bcw` at time 10 under key `"key-1"`. -/
def r1w : CachedResponse :=
  { batch_id := 1, status := "processing", orders := [order1w],
    proposed_routing := [{ order_index := 0, broker := "zerodha-mock",
                           reason := "Default routing strategy" }],
    message := "Batch 1 created with 1 orders" }

/-- The system state after that first submission: one batch row, one order
row, one placement, and the response cached under `"key-1"` until
`10 + 86400`. -/
def s1w : SysState :=
  { redis_available := true,
    cache := [("key-1", r1w, 86410)],
    batches := [{ id := 1, user_id := 1, portfolio_id := 1,
                  orders_json := bcw.orders, status := "processing",
                  created_at := 10, idempotency_key := some "key-1" }],
    orders := [order1w],
    next_batch_id := 2, next_order_id := 2,
    zerodha := { broker_name := "zerodha-mock", order_counter := 1,
                 simulated_fills := [] },
    alpaca := alpacaInit, placements := 1 }

/-- Evaluation of the concrete first submission, shared by the witnesses of
the idempotency and routing theorems. -/
theorem first_submission_eval :
    create_order_batch s0w 10 ["u1"] bcw (some "key-1") =
      Except.ok (r1w, s1w) := by
  simp [create_order_batch, effectiveKey, check_idempotency, validateBatch,
    OrderValidator.validate, OrderValidator.validationErrors,
    OrderValidator.check_margin, settings, pyOr, get_routing_strategy,
    preferredIsValid, defaultBroker, placeLoop, place_with_broker,
    ZerodhaMockConnector.place_order, get_simulated_fill, store_idempotency,
    generate_idempotency_key, s0w, bcw, r1w, s1w, order1w, alpacaInit,
    List.range_succ, knownBrokers]
  norm_num
  exact ⟨⟨rfl, rfl⟩, rfl⟩

/-- Witness for C1: the idempotency theorem applied to the concrete first
submission of `bcw`; the second submission at time 20 (same key, within
TTL) returns the identical response and the identical state, whose
placement counter still reads 1. -/
theorem idempotent_second_submission_witness :
    create_order_batch s1w 20 [] bcw (some "key-1") =
      Except.ok (r1w, s1w) ∧
    s1w.placements = 1 := by
  refine ⟨?_, rfl⟩
  exact idempotent_second_submission s0w 10 20 ["u1"] [] bcw "key-1" r1w s1w
    (by decide) rfl rfl first_submission_eval (by norm_num)

/-- Witness for C10: the routing theorem applied to the concrete
submission of `bcw`, whose single order asked for `"alpaca-mock"`; the
response still routes it to the parity default `"zerodha-mock"` with reason
`"Default routing strategy"`. -/
theorem batch_routing_ignores_client_broker_witness :
    r1w.proposed_routing = get_routing_strategy bcw.orders none ∧
    ∀ rd ∈ r1w.proposed_routing, rd.reason = "Default routing strategy" ∧
      rd.broker = defaultBroker rd.order_index := by
  exact batch_routing_ignores_client_broker s0w 10 ["u1"] bcw (some "key-1")
    r1w s1w rfl first_submission_eval
